import Mathlib

/-
Shallow embedding of `src/file-cache.ts` (class `FileSystemCachePlugin`), a
filesystem-backed key/value cache with TTL expiration, and proofs about its
behavior.

Modelling conventions:
* The cache directory is a list of `DirFile` records (a directory listing has
  unique names; `fsWrite` models `fsPromises.writeFile` overwriting the file
  with that name, else creating it).
* A file's stored JSON document is `Option Entry`: `some e` when
  `JSON.parse` succeeds and yields `{ payload, ttl, expiration }`, `none` when
  the content is corrupt (`JSON.parse` throws) or the path is not a regular
  file (`stats.isFile()` is false, which the source turns into a thrown error
  on the same code path as a parse failure).
* Injected fault flags on each file model filesystem failures: `statFails`
  (`statSync` / `fsPromises.stat` throws for this path) and `unlinkFails`
  (`unlinkSync` throws for this path).
* A directory listing that fails (`readdirSync` throws, e.g. the base path
  does not exist) is modelled by passing `none` instead of `some files`.
* JavaScript numbers are modelled as `Int` (epoch milliseconds, TTLs) and the
  two divisions by 1000 / (1024*1024) are carried out in `ℚ`, so that the
  comparisons the source performs on the quotients are exact.
* `Date.now()` is passed in explicitly as `now`.
-/

namespace FileCache

/-- JSON values, the payloads the cache persists (`JSON.parse`/`JSON.stringify`
territory). Numbers are modelled as integers. -/
inductive JVal where
  | null : JVal
  | bool : Bool → JVal
  | num : Int → JVal
  | str : String → JVal
  | arr : List JVal → JVal
  | obj : List (String × JVal) → JVal

/-! ### SHA-256, embedding `createHash('sha256').update(s).digest('hex')`

The source derives on-disk keys from the SHA-256 digest of the logical file
name. We embed the full FIPS 180-4 algorithm over `Nat`, with `% 2 ^ 32`
wherever 32-bit overflow matters, and UTF-8 encoding of the input string. -/

/-- UTF-8 encoding of a single Unicode code point. -/
def utf8Bytes (c : Nat) : List Nat :=
  if c < 0x80 then [c]
  else if c < 0x800 then [0xC0 + c / 64, 0x80 + c % 64]
  else if c < 0x10000 then [0xE0 + c / 4096, 0x80 + c / 64 % 64, 0x80 + c % 64]
  else [0xF0 + c / 262144, 0x80 + c / 4096 % 64, 0x80 + c / 64 % 64, 0x80 + c % 64]

/-- The UTF-8 byte sequence of a string. -/
def strBytes (s : String) : List Nat :=
  (s.data.map (fun c => utf8Bytes c.toNat)).flatten

/-- Big-endian byte expansion of `v` into `k` bytes. -/
def beBytes : Nat → Nat → List Nat
  | 0, _ => []
  | k + 1, v => beBytes k (v / 256) ++ [v % 256]

/-- SHA-256 message padding: append `0x80`, zeros, and the 64-bit big-endian
bit length, reaching a multiple of 64 bytes. -/
def padMsg (m : List Nat) : List Nat :=
  m ++ [0x80] ++ List.replicate ((64 - (m.length + 9) % 64) % 64) 0
    ++ beBytes 8 (8 * m.length)

/-- Group bytes into big-endian 32-bit words. -/
def bytesToWords : List Nat → List Nat
  | b0 :: b1 :: b2 :: b3 :: rest =>
      (b0 * 16777216 + b1 * 65536 + b2 * 256 + b3) :: bytesToWords rest
  | _ => []

/-- Split a byte list into 64-byte chunks (fuel-driven structural recursion;
`fuel` at least the list length). -/
def chunks64 : Nat → List Nat → List (List Nat)
  | 0, _ => []
  | _, [] => []
  | fuel + 1, l => l.take 64 :: chunks64 fuel (l.drop 64)

/-- Right rotation of a 32-bit word. -/
def rotr (n x : Nat) : Nat :=
  x / 2 ^ n + x % 2 ^ n * 2 ^ (32 - n)

/-- SHA-256 big sigma-0. -/
def capS0 (x : Nat) : Nat := rotr 2 x ^^^ rotr 13 x ^^^ rotr 22 x

/-- SHA-256 big sigma-1. -/
def capS1 (x : Nat) : Nat := rotr 6 x ^^^ rotr 11 x ^^^ rotr 25 x

/-- SHA-256 small sigma-0. -/
def smlS0 (x : Nat) : Nat := rotr 7 x ^^^ rotr 18 x ^^^ x / 8

/-- SHA-256 small sigma-1. -/
def smlS1 (x : Nat) : Nat := rotr 17 x ^^^ rotr 19 x ^^^ x / 1024

/-- The eight 32-bit working registers of SHA-256. -/
structure Sha256St where
  a : Nat
  b : Nat
  c : Nat
  d : Nat
  e : Nat
  f : Nat
  g : Nat
  h : Nat

/-- The SHA-256 initial hash value (FIPS 180-4 section 5.3.3, written in
decimal). -/
def sha256IV : Sha256St :=
  ⟨1779033703, 3144134277, 1013904242, 2773480762,
   1359893119, 2600822924, 528734635, 1541459225⟩

/-- The 64 SHA-256 round constants (FIPS 180-4 section 4.2.2, written in
decimal). -/
def sha256K : List Nat :=
  [1116352408, 1899447441, 3049323471, 3921009573, 961987163,
   1508970993, 2453635748, 2870763221, 3624381080, 310598401,
   607225278, 1426881987, 1925078388, 2162078206, 2614888103,
   3248222580, 3835390401, 4022224774, 264347078, 604807628,
   770255983, 1249150122, 1555081692, 1996064986, 2554220882,
   2821834349, 2952996808, 3210313671, 3336571891, 3584528711,
   113926993, 338241895, 666307205, 773529912, 1294757372,
   1396182291, 1695183700, 1986661051, 2177026350, 2456956037,
   2730485921, 2820302411, 3259730800, 3345764771, 3516065817,
   3600352804, 4094571909, 275423344, 430227734, 506948616,
   659060556, 883997877, 958139571, 1322822218, 1537002063,
   1747873779, 1955562222, 2024104815, 2227730452, 2361852424,
   2428436474, 2756734187, 3204031479, 3329325298]

/-- Extend the 16 message-schedule words to 64 (fuel 48). -/
def extendW (w : List Nat) : Nat → List Nat
  | 0 => w
  | k + 1 =>
    let i := w.length
    let nw := (w.getD (i - 16) 0 + smlS0 (w.getD (i - 15) 0)
      + w.getD (i - 7) 0 + smlS1 (w.getD (i - 2) 0)) % 2 ^ 32
    extendW (w ++ [nw]) k

/-- One SHA-256 compression round for a given `(k, w)` pair. -/
def roundStep (st : Sha256St) (kw : Nat × Nat) : Sha256St :=
  let ch := st.e &&& st.f ^^^ (st.e ^^^ 0xffffffff) &&& st.g
  let maj := st.a &&& st.b ^^^ st.a &&& st.c ^^^ st.b &&& st.c
  let t1 := (st.h + capS1 st.e + ch + kw.1 + kw.2) % 2 ^ 32
  let t2 := (capS0 st.a + maj) % 2 ^ 32
  ⟨(t1 + t2) % 2 ^ 32, st.a, st.b, st.c, (st.d + t1) % 2 ^ 32, st.e, st.f, st.g⟩

/-- Process one 64-byte chunk. -/
def processChunk (st : Sha256St) (block : List Nat) : Sha256St :=
  let w := extendW (bytesToWords block) 48
  let t := (sha256K.zip w).foldl roundStep st
  ⟨(st.a + t.a) % 2 ^ 32, (st.b + t.b) % 2 ^ 32, (st.c + t.c) % 2 ^ 32,
   (st.d + t.d) % 2 ^ 32, (st.e + t.e) % 2 ^ 32, (st.f + t.f) % 2 ^ 32,
   (st.g + t.g) % 2 ^ 32, (st.h + t.h) % 2 ^ 32⟩

/-- SHA-256 digest state of a byte message. -/
def sha256 (msg : List Nat) : Sha256St :=
  (chunks64 (padMsg msg).length (padMsg msg)).foldl processChunk sha256IV

/-- A hexadecimal digit character. -/
def hexDigit (n : Nat) : Char :=
  if n < 10 then Char.ofNat (48 + n) else Char.ofNat (87 + n)

/-- Lower-case hexadecimal rendering of one 32-bit word, eight digits. -/
def hex8 (w : Nat) : String :=
  String.mk [hexDigit (w / 16 ^ 7 % 16), hexDigit (w / 16 ^ 6 % 16),
    hexDigit (w / 16 ^ 5 % 16), hexDigit (w / 16 ^ 4 % 16),
    hexDigit (w / 16 ^ 3 % 16), hexDigit (w / 16 ^ 2 % 16),
    hexDigit (w / 16 % 16), hexDigit (w % 16)]

/-- Embeds `createHash('sha256').update(fileName).digest('hex')`: the
lower-case hex SHA-256 digest of the UTF-8 bytes of a string. -/
def sha256Hex (s : String) : String :=
  let st := sha256 (strBytes s)
  hex8 st.a ++ hex8 st.b ++ hex8 st.c ++ hex8 st.d
    ++ hex8 st.e ++ hex8 st.f ++ hex8 st.g ++ hex8 st.h

/-- Embeds `formatFileName` (file-cache.ts line 44): the derived on-disk key.
The source template is
`${fileNamePrefix ? `${fileNamePrefix} hash_` : 'hash_'}${sha256hex}`;
a JavaScript string is truthy iff it is nonempty. The digest input is the
logical `fileName` only; the prefix is a literal label. -/
def formatFileName (pfx fileName : String) : String :=
  (if pfx = "" then "hash_" else pfx ++ " hash_") ++ sha256Hex fileName

/-! ### Data model: persisted entries and the cache directory -/

/-- The JSON document `set` persists (file-cache.ts lines 66-70):
`{ payload, ttl, expiration }`, with `expiration` null for a non-expiring
entry. `ttl` is `FILE_TTL`, in milliseconds. -/
structure Entry where
  payload : JVal
  ttl : Int
  expiration : Option Int

/-- One file of the cache directory: its on-disk name, its parsed content
(`none` when `JSON.parse` throws on it, or it is not a regular file), its
size in bytes as reported by `statSync`, and injected fault flags for the
`stat` and `unlink` system calls on its path. -/
structure DirFile where
  name : String
  content : Option Entry
  size : Nat
  statFails : Bool
  unlinkFails : Bool

/-- Look a file up by name in a directory listing. -/
def fsFind : List DirFile → String → Option DirFile
  | [], _ => none
  | g :: rest, n => if g.name = n then some g else fsFind rest n

/-- Overwrite-or-create semantics of `fsPromises.writeFile`: replace the file
bearing this name, or append the file when the name is fresh. -/
def fsWrite : List DirFile → DirFile → List DirFile
  | [], f => [f]
  | g :: rest, f => if g.name = f.name then f :: rest else g :: fsWrite rest f

/-! ### The engine: constructor, set, get -/

/-- The engine instance fields (file-cache.ts lines 35-42). -/
structure FileSystemCachePlugin where
  basePath : String
  defaultTTL : Int

/-- Embeds the constructor (lines 39-42): `this.defaultTTL = defaultTTL || 60`.
Zero is the falsy integer, so a zero `defaultTTL` is replaced by 60. -/
def mkFileSystemCachePlugin (basePath : String) (defaultTTL : Int) :
    FileSystemCachePlugin :=
  ⟨basePath, if defaultTTL = 0 then 60 else defaultTTL⟩

/-- Errors `get` can signal: the stat fails (file absent — a not-found
condition — or an I/O fault), the stat result is not a regular file, or the
stored JSON is malformed. -/
inductive CacheError where
  | notFound : CacheError
  | ioError : CacheError
  | parseError : CacheError

/-- Models `Object(payload)` followed by `JSON.stringify`/`JSON.parse` of the
entry (lines 63 and 101): `Object(null)` and `Object(undefined)` are the
empty object; `Object` applied to a primitive yields a wrapper object that
`JSON.stringify` serializes back to the primitive; objects and arrays pass
through unchanged. The argument is `none` for `undefined`. -/
def coercePayload : Option JVal → JVal
  | none => .obj []
  | some .null => .obj []
  | some v => v

/-- Embeds `set` (lines 48-82) on its success path: computes
`FILE_TTL = ttl * 1000` (with `ttl` defaulting to the engine's default when
the call omits it), derives the key, builds the entry with
`expiration = FILE_TTL ? now + FILE_TTL : null` (zero is falsy), and writes
it, returning the new directory and the path written. Directory creation and
write failures propagate and are outside every claim, so they are not fault-
injected here; the stored byte size is not modelled and recorded as 0. -/
def set (eng : FileSystemCachePlugin) (now : Int) (pfx fileName : String)
    (payload : Option JVal) (ttl : Option Int) (fs : List DirFile) :
    List DirFile × String :=
  let t := ttl.getD eng.defaultTTL
  let fileTTL := t * 1000
  let key := formatFileName pfx fileName
  let entry : Entry :=
    ⟨coercePayload payload, fileTTL,
      if fileTTL = 0 then none else some (now + fileTTL)⟩
  (fsWrite fs ⟨key, some entry, 0, false, false⟩, eng.basePath ++ "/" ++ key)

/-- Embeds `get` (lines 84-109): derives the key, stats the path (absent file
or stat fault throws), requires a regular file, reads and parses the JSON,
and returns only the `payload` field. No TTL or expiration field is read. -/
def get (_eng : FileSystemCachePlugin) (pfx fileName : String)
    (fs : List DirFile) : Except CacheError JVal :=
  match fsFind fs (formatFileName pfx fileName) with
  | none => .error .notFound
  | some f =>
    if f.statFails then .error .ioError
    else
      match f.content with
      | none => .error .parseError
      | some e => .ok e.payload

/-! ### TTL validation and the expiry sweep -/

/-- Embeds `Math.max(a, b)` on rationals: the larger argument. -/
def mathMax (a b : ℚ) : ℚ := if a ≤ b then b else a

/-- Division of a rational by a positive integer, as used by the source for
`x / 1000` and `x / (1024 * 1024)`. Implemented through `mkRat` so that it
evaluates inside the kernel (the library division on `ℚ` is built from
`Rat.mul` and `Rat.inv`, which are irreducible); `divByNat_eq` below proves
it equal to the library division. -/
def divByNat (a : ℚ) (n : Nat) : ℚ := mkRat a.num (a.den * n)

/-- Core of `validateFile` (lines 111-142) applied to one file record: stat
(a stat fault, a missing file, or a non-regular file throws — all caught by
the internal catch, yielding `undefined`, i.e. `none`), parse (a parse error
likewise yields `none`), then compute
`expiresIn = data.expiration ? max(0, (expiration - now) / 1000) : null`
(zero is the falsy integer) and `ttl = data.ttl / 1000`, in seconds. -/
def validateFileRec (now : Int) (f : DirFile) : Option (ℚ × Option ℚ) :=
  if f.statFails then none
  else
    match f.content with
    | none => none
    | some e =>
      let expiresIn : Option ℚ :=
        match e.expiration with
        | some exp => if exp = 0 then none
            else some (mathMax 0 (divByNat ((exp - now : Int) : ℚ) 1000))
        | none => none
      some (divByNat (e.ttl : ℚ) 1000, expiresIn)

/-- Embeds `validateFile` (lines 111-142): looks the file up by on-disk name
and inspects it; every failure is swallowed and returns `undefined` (`none`).
-/
def validateFile (now : Int) (fs : List DirFile) (fileName : String) :
    Option (ℚ × Option ℚ) :=
  match fsFind fs fileName with
  | none => none
  | some f => validateFileRec now f

/-- Replaces a JavaScript falsy `expiresIn` by 0: models `expiresIn || 0`
(line 156). `null` becomes 0; a number is unchanged (0 is falsy but
`0 || 0 = 0`). -/
def jsOrZero : Option ℚ → ℚ
  | none => 0
  | some q => q

/-- The per-file loop of `invalidate` (lines 151-170) over the directory
listing, returning the remaining files, `filesInvalidated`, and `totalSize`.
For each file: `statSync` runs before the inner try, so a stat fault
propagates to the outer catch and silently halts the loop, leaving this and
all later files untouched. Otherwise the file is validated (failures give
`undefined`, replaced by `{ ttl: 0, expiresIn: 0 }`), judged
`invalid = (expiresIn || 0) <= 0`, its size added to `totalSize`, and, when
invalid, unlinked (`filesInvalidated` increments after a successful unlink; a
failing unlink is caught by the inner catch and the loop continues). -/
def sweepFiles (now : Int) : List DirFile → List DirFile × Nat × Nat
  | [] => ([], 0, 0)
  | f :: rest =>
    if f.statFails then (f :: rest, 0, 0)
    else
      let v := (validateFileRec now f).getD (0, some 0)
      let invalid := jsOrZero v.2 ≤ 0
      if invalid then
        if f.unlinkFails then
          let r := sweepFiles now rest
          (f :: r.1, r.2.1, f.size + r.2.2)
        else
          let r := sweepFiles now rest
          (r.1, r.2.1 + 1, f.size + r.2.2)
      else
        let r := sweepFiles now rest
        (f :: r.1, r.2.1, f.size + r.2.2)

/-- One snapshot of `GLOBAL_LOGS_OVER_TIME` (lines 19-27, 173-181): the
timestamp identifier, the total bytes and megabytes across all inspected
entries, and the three counters at that instant. The derived human-readable
`totalSize` string is omitted. -/
structure TLogsOverTime where
  id : Int
  bytes : Nat
  mb : ℚ
  endpointInvalidateRequestCount : Nat
  endpointDeleteRequestCount : Nat
  endpointDeleteByRegexRequestCount : Nat

/-- The process-wide mutable globals (lines 30-33): the three request
counters and the historical snapshot log. -/
structure GlobalState where
  endpointInvalidateRequestCount : Nat
  endpointDeleteRequestCount : Nat
  endpointDeleteByRegexRequestCount : Nat
  logsOverTime : List TLogsOverTime

/-- What `invalidate` returns (lines 182-190), minus the derived strings and
the per-file diagnostic list. -/
structure InvalidateResult where
  endpointInvalidateRequestCount : Nat
  filesInvalidated : Nat
  bytes : Nat
  mb : ℚ
  logsOverTime : List TLogsOverTime

/-- Embeds `invalidate` (lines 144-191). `fs` is `none` when `readdirSync`
throws (the outer catch swallows that, and the counter increment on line 150,
which sits after the listing, is never reached); the snapshot push (line 173)
is outside the try and always runs. On a successful listing the counter
increments by one and the per-file loop runs. Returns the new globals, the
new directory, and the result record. -/
def invalidate (now : Int) (g : GlobalState) (fs : Option (List DirFile)) :
    GlobalState × Option (List DirFile) × InvalidateResult :=
  match fs with
  | none =>
    let snap : TLogsOverTime :=
      ⟨now, 0, divByNat 0 (1024 * 1024), g.endpointInvalidateRequestCount,
        g.endpointDeleteRequestCount, g.endpointDeleteByRegexRequestCount⟩
    let g2 := { g with logsOverTime := g.logsOverTime ++ [snap] }
    (g2, none,
      ⟨g2.endpointInvalidateRequestCount, 0, 0, divByNat 0 (1024 * 1024),
        g2.logsOverTime⟩)
  | some files =>
    let g1 := { g with
      endpointInvalidateRequestCount := g.endpointInvalidateRequestCount + 1 }
    let r := sweepFiles now files
    let snap : TLogsOverTime :=
      ⟨now, r.2.2, divByNat (r.2.2 : ℚ) (1024 * 1024),
        g1.endpointInvalidateRequestCount, g1.endpointDeleteRequestCount,
        g1.endpointDeleteByRegexRequestCount⟩
    let g2 := { g1 with logsOverTime := g1.logsOverTime ++ [snap] }
    (g2, some r.1,
      ⟨g2.endpointInvalidateRequestCount, r.2.1, r.2.2,
        divByNat (r.2.2 : ℚ) (1024 * 1024), g2.logsOverTime⟩)

/-! ### Flush operations -/

/-- The unlink loop of `flushAll` (lines 219-221): deletes each listed file
in order; the first failing unlink throws out of the loop (`true` = the loop
completed, paired with the files that remain on disk). -/
def flushAllLoop : List DirFile → Bool × List DirFile
  | [] => (true, [])
  | f :: rest => if f.unlinkFails then (false, f :: rest) else flushAllLoop rest

/-- The try block of `flushAll` (lines 215-225): the counter increments
first (line 216, so it moves even when the listing then fails), then the
directory is listed (a failing `readdirSync` throws) and every file unlinked
(a failing unlink throws mid-loop). The `Except` component is the value the
try block produces: `ok (counter, files.length)` or a thrown error. -/
def flushAllTry (g : GlobalState) (fs : Option (List DirFile)) :
    GlobalState × Option (List DirFile) × Except Unit (Nat × Nat) :=
  let g1 := { g with
    endpointDeleteRequestCount := g.endpointDeleteRequestCount + 1 }
  match fs with
  | none => (g1, none, .error ())
  | some files =>
    match flushAllLoop files with
    | (true, rem) =>
      (g1, some rem, .ok (g1.endpointDeleteRequestCount, files.length))
    | (false, rem) => (g1, some rem, .error ())

/-- Embeds `flushAll` (lines 214-229): the try block above, whose thrown
errors are caught at the top level (line 226), logged with `console.error`,
and turned into a return of `undefined` (`none`) — they are not rethrown. -/
def flushAll (g : GlobalState) (fs : Option (List DirFile)) :
    GlobalState × Option (List DirFile) × Option (Nat × Nat) :=
  match flushAllTry g fs with
  | (g2, fs2, .ok r) => (g2, fs2, some r)
  | (g2, fs2, .error _) => (g2, fs2, none)

/-- Substring occurrence over character lists. -/
def listContains (pat : List Char) : List Char → Bool
  | [] => pat.isEmpty
  | c :: rest => pat.isPrefixOf (c :: rest) || listContains pat rest

/-- Models `file.match(pattern)` (line 200) being truthy, for pattern strings
free of regular-expression metacharacters (the only patterns the spec
exercises): a literal pattern matches iff it occurs as a substring, and the
empty pattern matches every string — exactly the behavior of the empty
regular expression. -/
def jsMatch (s pat : String) : Bool :=
  listContains pat.data s.data

/-- The per-file loop of `flushByRegex` (lines 199-204): a file whose name
matches both patterns is unlinked and counted; the first failing unlink
throws out of the loop (third component `false`), leaving that file and all
later files on disk, while earlier deletions persist. -/
def flushRegexLoop (org rgx : String) : List DirFile → List DirFile × Nat × Bool
  | [] => ([], 0, true)
  | f :: rest =>
    if jsMatch f.name org && jsMatch f.name rgx then
      if f.unlinkFails then (f :: rest, 0, false)
      else
        let r := flushRegexLoop org rgx rest
        (r.1, r.2.1 + 1, r.2.2)
    else
      let r := flushRegexLoop org rgx rest
      (f :: r.1, r.2.1, r.2.2)

/-- Embeds `flushByRegex` (lines 193-212): the counter increments first
(line 195), then the directory is listed (`none` models a throwing
`readdirSync`) and the loop runs; any thrown error is caught at the top
level (line 209), logged, and turned into a return of `undefined` (`none`).
In the source the second pattern defaults to the empty string when the call
omits it. -/
def flushByRegex (org rgx : String) (g : GlobalState)
    (fs : Option (List DirFile)) :
    GlobalState × Option (List DirFile) × Option (Nat × Nat) :=
  let g1 := { g with
    endpointDeleteByRegexRequestCount := g.endpointDeleteByRegexRequestCount + 1 }
  match fs with
  | none => (g1, none, none)
  | some files =>
    let r := flushRegexLoop org rgx files
    (g1, some r.1,
      if r.2.2 then some (g1.endpointDeleteByRegexRequestCount, r.2.1) else none)

/-! ### Concrete fixtures used by witnesses and counterexamples -/

/-- An engine with base path `cache` and the 60-second default TTL. -/
def e0 : FileSystemCachePlugin := mkFileSystemCachePlugin "cache" 60

/-- Fresh global state: all counters zero, empty snapshot log. -/
def g0 : GlobalState := ⟨0, 0, 0, []⟩

/-- A file whose stored content is not valid JSON. -/
def corruptFile : DirFile := ⟨"corrupt", none, 10, false, false⟩

/-- A healthy entry far from its expiration (expires at epoch-ms 100000). -/
def freshFile : DirFile := ⟨"fresh", some ⟨JVal.obj [], 5000, some 100000⟩, 7, false, false⟩

/-- A deletable file. -/
def okFile : DirFile := ⟨"ok", none, 1, false, false⟩

/-- A file whose deletion fails (`unlinkSync` throws on it). -/
def lockedFile : DirFile := ⟨"locked", none, 2, false, true⟩

/-- First file of the spec's pattern-flush example. -/
def acme1 : DirFile := ⟨"acme hash_111", none, 1, false, false⟩

/-- Second file of the spec's pattern-flush example. -/
def acme2 : DirFile := ⟨"acme hash_222", none, 1, false, false⟩

/-- Third file of the spec's pattern-flush example, different organization. -/
def other3 : DirFile := ⟨"other hash_333", none, 1, false, false⟩

/-- An entry whose expiration (epoch-ms 100) lies in the past of `now = 200`. -/
def staleEntry : Entry := ⟨JVal.num 7, 5000, some 100⟩

/-- The stale entry stored under the key derived from `("p", "k")`. -/
def staleFile : DirFile := ⟨formatFileName "p" "k", some staleEntry, 3, false, false⟩

/-! ### Helper lemmas -/

/-- The kernel-reducible division agrees with the library division on `ℚ`. -/
theorem divByNat_eq (a : ℚ) (n : Nat) : divByNat a n = a / n := by
  rw [divByNat, Rat.mkRat_eq_div]
  push_cast
  rw [← div_div, Rat.num_div_den]

/-- Looking up the name just written finds exactly the written file. -/
theorem fsFind_write (fs : List DirFile) (f : DirFile) :
    fsFind (fsWrite fs f) f.name = some f := by
  induction fs with
  | nil => simp [fsWrite, fsFind]
  | cons g rest ih =>
    by_cases h : g.name = f.name
    · simp [fsWrite, fsFind, h]
    · simp [fsWrite, fsFind, h, ih]

/-- Variant of `fsFind_write` with the looked-up name abstracted, phrased so
it can be applied by rewriting. -/
theorem fsFind_write_name (fs : List DirFile) (f : DirFile) (s : String)
    (h : f.name = s) : fsFind (fsWrite fs f) s = some f :=
  h ▸ fsFind_write fs f

/-- Reading back immediately after a write returns the coerced payload that
was stored. -/
theorem get_set (eng : FileSystemCachePlugin) (now : Int) (pfx n : String)
    (pay : Option JVal) (ttl : Option Int) (fs : List DirFile) :
    get eng pfx n (set eng now pfx n pay ttl fs).1 = .ok (coercePayload pay) := by
  simp only [get, set]
  rw [fsFind_write_name fs _ (formatFileName pfx n) rfl]
  rfl

/-- The empty character list occurs in every character list. -/
theorem listContains_nil (l : List Char) : listContains [] l = true := by
  cases l <;> rfl

/-- The empty pattern matches every string. -/
theorem jsMatch_empty (s : String) : jsMatch s "" = true :=
  listContains_nil s.data

/-- One hex-rendered word has eight characters. -/
theorem hex8_length (w : Nat) : (hex8 w).length = 8 := rfl

/-- The hex digest of any string has 64 characters. -/
theorem sha256Hex_length (s : String) : (sha256Hex s).length = 64 := by
  simp [sha256Hex, String.length_append, hex8_length]

/-- When no deletion faults are present, the pattern-flush loop deletes
exactly the files matching both patterns and counts them. -/
theorem flushRegexLoop_ok (org rgx : String) (files : List DirFile)
    (h : ∀ f ∈ files, f.unlinkFails = false) :
    flushRegexLoop org rgx files
      = (files.filter (fun f => !(jsMatch f.name org && jsMatch f.name rgx)),
          (files.filter (fun f => jsMatch f.name org && jsMatch f.name rgx)).length,
          true) := by
  induction files with
  | nil => simp [flushRegexLoop]
  | cons f rest ih =>
    have hf := h f (List.mem_cons_self f rest)
    have hrest : ∀ g ∈ rest, g.unlinkFails = false :=
      fun g hg => h g (List.mem_cons_of_mem f hg)
    cases ho : jsMatch f.name org <;> cases hr : jsMatch f.name rgx <;>
      simp [flushRegexLoop, ho, hr, hf, ih hrest, List.filter_cons]

/-- The flush-all loop stops at the first file whose deletion fails, leaving
it and everything after it in place. -/
theorem flushAllLoop_fault (pre post : List DirFile) (bad : DirFile)
    (hpre : ∀ f ∈ pre, f.unlinkFails = false) (hbad : bad.unlinkFails = true) :
    flushAllLoop (pre ++ bad :: post) = (false, bad :: post) := by
  induction pre with
  | nil => simp [flushAllLoop, hbad]
  | cons f rest ih =>
    have hf := hpre f (List.mem_cons_self f rest)
    have hrest : ∀ g ∈ rest, g.unlinkFails = false :=
      fun g hg => hpre g (List.mem_cons_of_mem f hg)
    simp [flushAllLoop, hf, ih hrest]

/-! ### Claims -/

/-- C1: the claim states that an entry stored with `expiration = null`
(written with `ttl = 0`) is never deleted by the expiry sweep, at any current
time. The code does the opposite: `invalid = (expiresIn || 0) <= 0`
(line 156) coerces the `null` of a non-expiring entry to `0`, so every sweep
deletes such an entry. This theorem evaluates the code at the failing input:
for every engine, every write time and every sweep time, an entry written
with `ttl = 0` into an empty directory is deleted by the very next sweep. -/
theorem C1_sweep_deletes_nonexpiring (bp : String) (d : Int) (g : GlobalState)
    (now now2 : Int) (pfx n : String) (pay : Option JVal) :
    (invalidate now2 g
        (some (set (mkFileSystemCachePlugin bp d) now pfx n pay (some 0) []).1)).2.1
      = some []
    ∧ (invalidate now2 g
        (some (set (mkFileSystemCachePlugin bp d) now pfx n pay (some 0) []).1)).2.2.filesInvalidated
      = 1 :=
  ⟨rfl, rfl⟩

/-- C2 counterexample: the claim states that a failure while inspecting one
entry (e.g. content that is not valid JSON) leaves that entry undeleted.
Sweeping a directory holding a corrupt file and a fresh valid file at
`now = 0` deletes the corrupt file (only the fresh file remains and
`filesInvalidated = 1`), while the sweep continues past it (the byte total
17 = 10 + 7 shows both files were inspected). -/
theorem C2_counterexample :
    (invalidate 0 g0 (some [corruptFile, freshFile])).2.1 = some [freshFile]
    ∧ (invalidate 0 g0 (some [corruptFile, freshFile])).2.2.filesInvalidated = 1
    ∧ (invalidate 0 g0 (some [corruptFile, freshFile])).2.2.bytes = 17 :=
  ⟨rfl, rfl, rfl⟩

/-- C2 amended: a parse failure while inspecting an entry is swallowed (no
outward error) and the sweep continues over the remaining entries, but the
entry is not skipped: `validateFile` returns `undefined`, the loop replaces
it by `{ ttl: 0, expiresIn: 0 }`, and the entry is treated as expired and
deleted in that cycle. -/
theorem C2_corrupt_entry_deleted_sweep_continues (now : Int) (f : DirFile)
    (rest : List DirFile) (h1 : f.content = none) (h2 : f.statFails = false)
    (h3 : f.unlinkFails = false) :
    sweepFiles now (f :: rest)
      = ((sweepFiles now rest).1, (sweepFiles now rest).2.1 + 1,
          f.size + (sweepFiles now rest).2.2) := by
  simp [sweepFiles, validateFileRec, jsOrZero, h1, h2, h3]

/-- C2 witness: the amended statement applied to the corrupt file followed by
the fresh file. -/
theorem C2_witness :
    sweepFiles 0 (corruptFile :: [freshFile])
      = ((sweepFiles 0 [freshFile]).1, (sweepFiles 0 [freshFile]).2.1 + 1,
          corruptFile.size + (sweepFiles 0 [freshFile]).2.2) :=
  C2_corrupt_entry_deleted_sweep_continues 0 corruptFile [freshFile] rfl rfl rfl

/-- C3 counterexample: the claim states that `flushAll` surfaces (propagates)
the first deletion failure to the caller. On a directory whose second file
fails to unlink, the try block does throw, but `flushAll` itself returns
normally: the error is caught, and the call yields `undefined` (`none`) with
the failing file and its successors still on disk. -/
theorem C3_counterexample :
    (flushAllTry g0 (some [okFile, lockedFile, corruptFile])).2.2 = .error ()
    ∧ flushAll g0 (some [okFile, lockedFile, corruptFile])
        = (⟨0, 1, 0, []⟩, some [lockedFile, corruptFile], none) :=
  ⟨rfl, rfl⟩

/-- C3 amended: if a deletion fails while `flushAll` iterates, the iteration
aborts (the failing file and every later file stay on disk, earlier
deletions persist), but the failure is caught at the top level and the call
returns `undefined` instead of propagating — the same report-and-return
behavior as `flushByRegex`. The full-flush counter has already moved. -/
theorem C3_flushAll_catches_failure (g : GlobalState) (pre post : List DirFile)
    (bad : DirFile) (hpre : ∀ f ∈ pre, f.unlinkFails = false)
    (hbad : bad.unlinkFails = true) :
    flushAll g (some (pre ++ bad :: post))
      = ({ g with endpointDeleteRequestCount := g.endpointDeleteRequestCount + 1 },
          some (bad :: post), none) := by
  simp [flushAll, flushAllTry, flushAllLoop_fault pre post bad hpre hbad]

/-- C3 witness: the amended statement applied to a deletable file, a locked
file and a trailing file. -/
theorem C3_witness :
    flushAll g0 (some ([okFile] ++ lockedFile :: [corruptFile]))
      = ({ g0 with endpointDeleteRequestCount := g0.endpointDeleteRequestCount + 1 },
          some (lockedFile :: [corruptFile]), none) :=
  C3_flushAll_catches_failure g0 [okFile] [corruptFile] lockedFile (by decide) rfl

/-- C4 counterexample: the claim quantifies over every JSON-serializable
payload, but storing the JSON value `null` and reading it back yields the
empty object, which is not deep-equal to `null` (the `Object(payload)`
coercion on line 63). -/
theorem C4_counterexample :
    get e0 "p" "k" (set e0 5 "p" "k" (some JVal.null) none []).1 = .ok (JVal.obj [])
    ∧ JVal.obj [] ≠ JVal.null :=
  ⟨get_set e0 5 "p" "k" (some JVal.null) none [], fun h => JVal.noConfusion h⟩

/-- C4 amended: for every (prefix, name) pair and every JSON-serializable
payload other than `null` (and `undefined`), `set` followed immediately by
`get` with the same pair returns a payload deep-equal to the one stored
(`null`/`undefined` instead come back as the empty object). The round trip
holds regardless of the TTL, since `get` performs no expiry check. -/
theorem C4_roundtrip (eng : FileSystemCachePlugin) (now : Int) (pfx n : String)
    (v : JVal) (ttl : Option Int) (fs : List DirFile) (hv : v ≠ JVal.null) :
    get eng pfx n (set eng now pfx n (some v) ttl fs).1 = .ok v := by
  rw [get_set]
  cases v <;> first | exact absurd rfl hv | rfl

/-- C4 witness: the amended round trip at the number payload 3. -/
theorem C4_witness :
    JVal.num 3 ≠ JVal.null
    ∧ get e0 "p" "k" (set e0 5 "p" "k" (some (JVal.num 3)) none []).1
        = .ok (JVal.num 3) :=
  ⟨fun h => JVal.noConfusion h,
    C4_roundtrip e0 5 "p" "k" (JVal.num 3) none [] (fun h => JVal.noConfusion h)⟩

/-- C5 counterexample: the claim states every invocation of the sweep
increments the sweep counter by exactly one. When the directory listing
fails (`readdirSync` throws, modelled by `none`), the increment on line 150
is never reached, yet the snapshot push on line 173 — outside the try —
still appends one snapshot: the counter stays at its old value while the log
grows. -/
theorem C5_counterexample :
    (invalidate 5 g0 none).1.endpointInvalidateRequestCount
      = g0.endpointInvalidateRequestCount
    ∧ (invalidate 5 g0 none).1.logsOverTime.length = g0.logsOverTime.length + 1 :=
  ⟨rfl, rfl⟩

/-- C5 amended: every invocation of the sweep appends exactly one snapshot to
the historical log, which is never pruned; the sweep counter increases by
exactly one when the directory listing succeeds and is unchanged when the
listing fails; no counter ever decreases across a sweep. -/
theorem C5_sweep_metrics (now : Int) (g : GlobalState)
    (fs : Option (List DirFile)) :
    (∃ snap, (invalidate now g fs).1.logsOverTime = g.logsOverTime ++ [snap])
    ∧ (invalidate now g fs).1.endpointInvalidateRequestCount
        = g.endpointInvalidateRequestCount + (if fs.isSome then 1 else 0)
    ∧ g.endpointInvalidateRequestCount
        ≤ (invalidate now g fs).1.endpointInvalidateRequestCount
    ∧ (invalidate now g fs).1.endpointDeleteRequestCount
        = g.endpointDeleteRequestCount
    ∧ (invalidate now g fs).1.endpointDeleteByRegexRequestCount
        = g.endpointDeleteByRegexRequestCount := by
  cases fs with
  | none => exact ⟨⟨_, rfl⟩, rfl, Nat.le_refl _, rfl, rfl⟩
  | some files => exact ⟨⟨_, rfl⟩, rfl, Nat.le_succ _, rfl, rfl⟩

/-- C6: when no deletion fault is present, `flushByRegex` deletes a file iff
its on-disk name matches both patterns (the remaining directory is exactly
the files failing the conjunction), returns the count of files so deleted,
and the defaulted secondary pattern — the empty one — matches every name. -/
theorem C6_flushByRegex_filter (org rgx : String) (g : GlobalState)
    (files : List DirFile) (h : ∀ f ∈ files, f.unlinkFails = false) :
    flushByRegex org rgx g (some files)
      = ({ g with endpointDeleteByRegexRequestCount :=
              g.endpointDeleteByRegexRequestCount + 1 },
          some (files.filter (fun f => !(jsMatch f.name org && jsMatch f.name rgx))),
          some (g.endpointDeleteByRegexRequestCount + 1,
            (files.filter (fun f => jsMatch f.name org && jsMatch f.name rgx)).length))
    ∧ (∀ s : String, jsMatch s "" = true) := by
  refine ⟨?_, jsMatch_empty⟩
  simp [flushByRegex, flushRegexLoop_ok org rgx files h]

/-- C6 witness: the spec's example — `flushByRegex "acme" ""` on the
directory `["acme hash_111", "acme hash_222", "other hash_333"]` deletes
exactly the two acme files and returns `deleted = 2`. -/
theorem C6_witness :
    flushByRegex "acme" "" g0 (some [acme1, acme2, other3])
      = (⟨0, 0, 1, []⟩, some [other3], some (1, 2)) :=
  (C6_flushByRegex_filter "acme" "" g0 [acme1, acme2, other3] (by decide)).1

/-- C7: key derivation is deterministic (it is a function) and digests the
logical name only: the derived key is the literal label followed by the
SHA-256 hex digest of the name — `"<prefix> hash_<digest>"` when a nonempty
prefix is supplied and `"hash_<digest>"` otherwise — and the digest is
fixed-size (64 hex characters for every input). -/
theorem C7_formatFileName_spec (pfx n : String) :
    (pfx = "" → formatFileName pfx n = "hash_" ++ sha256Hex n)
    ∧ (pfx ≠ "" → formatFileName pfx n = pfx ++ " hash_" ++ sha256Hex n)
    ∧ (sha256Hex n).length = 64 := by
  refine ⟨fun h => by simp [formatFileName, h],
    fun h => by simp [formatFileName, h, String.append_assoc],
    sha256Hex_length n⟩

/-- C7 witness: the empty-prefix shape at the name `"k"`. -/
theorem C7_witness : formatFileName "" "k" = "hash_" ++ sha256Hex "k" :=
  (C7_formatFileName_spec "" "k").1 rfl

/-- C8: `get` never checks TTL or expiration: for any stored entry whose file
is found, stats as a regular file and parses, `get` returns the stored
payload even when the entry's expiration time `texp` already lies strictly
before the current time `now` — expiration is enforced only by the sweep. -/
theorem C8_get_ignores_expiration (eng : FileSystemCachePlugin)
    (fs : List DirFile) (pfx n : String) (f : DirFile) (e : Entry)
    (now texp : Int) (h1 : fsFind fs (formatFileName pfx n) = some f)
    (h2 : f.statFails = false) (h3 : f.content = some e)
    (_h4 : e.expiration = some texp) (_h5 : texp < now) :
    get eng pfx n fs = .ok e.payload := by
  simp [get, h1, h2, h3]

/-- C8 witness: reading the stale entry (expired at epoch-ms 100, read at
`now = 200`) still returns its payload. -/
theorem C8_witness : get e0 "p" "k" [staleFile] = .ok (JVal.num 7) :=
  C8_get_ignores_expiration e0 [staleFile] "p" "k" staleFile staleEntry 200 100
    (by simp [fsFind, staleFile]) rfl rfl rfl (by decide)

/-- C9: the constructor replaces a falsy (zero) `defaultTTL` with 60, so an
engine built with `defaultTTL = 0` is identical to one built with 60; no
constructor argument yields a zero default, so a write that omits its TTL
always produces an expiring entry (`expiration` set), while only the
per-call `ttl = 0` produces the non-expiring entry (`expiration = null`). -/
theorem C9_defaultTTL_falsy (bp : String) :
    mkFileSystemCachePlugin bp 0 = mkFileSystemCachePlugin bp 60
    ∧ (∀ d : Int, (mkFileSystemCachePlugin bp d).defaultTTL ≠ 0)
    ∧ (∀ (d now : Int) (pfx n : String) (pay : Option JVal),
        (set (mkFileSystemCachePlugin bp d) now pfx n pay none []).1
          = [⟨formatFileName pfx n,
              some ⟨coercePayload pay,
                (mkFileSystemCachePlugin bp d).defaultTTL * 1000,
                some (now + (mkFileSystemCachePlugin bp d).defaultTTL * 1000)⟩,
              0, false, false⟩])
    ∧ (∀ (d now : Int) (pfx n : String) (pay : Option JVal),
        (set (mkFileSystemCachePlugin bp d) now pfx n pay (some 0) []).1
          = [⟨formatFileName pfx n, some ⟨coercePayload pay, 0, none⟩,
              0, false, false⟩]) := by
  have hNZ : ∀ d : Int, (mkFileSystemCachePlugin bp d).defaultTTL ≠ 0 := by
    intro d
    by_cases hd : d = 0 <;> simp [mkFileSystemCachePlugin, hd]
  refine ⟨rfl, hNZ, ?_, ?_⟩
  · intro d now pfx n pay
    have hTTL : (mkFileSystemCachePlugin bp d).defaultTTL * 1000 ≠ 0 :=
      mul_ne_zero (hNZ d) (by norm_num)
    simp [set, fsWrite, hTTL]
  · intro d now pfx n pay
    rfl

/-- C9 witness: an engine constructed with `defaultTTL = 0` behaves as one
with 60 — a write at time 7 omitting its TTL stores `ttl = 60000` ms and
`expiration = 60007`. -/
theorem C9_witness :
    (set (mkFileSystemCachePlugin "b" 0) 7 "p" "k" (some (JVal.num 1)) none []).1
      = [⟨formatFileName "p" "k", some ⟨JVal.num 1, 60000, some 60007⟩,
          0, false, false⟩] :=
  (C9_defaultTTL_falsy "b").2.2.1 0 7 "p" "k" (some (JVal.num 1))

/-- C10: `set` passes the payload through `Object(...)`, so a payload of
`null` or `undefined` is persisted as the empty object and a subsequent
`get` on that key returns the empty object, while object and array payloads
are persisted and returned unchanged. -/
theorem C10_object_coercion (eng : FileSystemCachePlugin) (now : Int)
    (pfx n : String) (ttl : Option Int) (fs : List DirFile) :
    get eng pfx n (set eng now pfx n none ttl fs).1 = .ok (JVal.obj [])
    ∧ get eng pfx n (set eng now pfx n (some JVal.null) ttl fs).1
        = .ok (JVal.obj [])
    ∧ (∀ props : List (String × JVal),
        get eng pfx n (set eng now pfx n (some (JVal.obj props)) ttl fs).1
          = .ok (JVal.obj props))
    ∧ (∀ elems : List JVal,
        get eng pfx n (set eng now pfx n (some (JVal.arr elems)) ttl fs).1
          = .ok (JVal.arr elems)) :=
  ⟨get_set eng now pfx n none ttl fs,
    get_set eng now pfx n (some JVal.null) ttl fs,
    fun props => get_set eng now pfx n (some (JVal.obj props)) ttl fs,
    fun elems => get_set eng now pfx n (some (JVal.arr elems)) ttl fs⟩

end FileCache

